import Mathlib

/-!
Verification of the roll-calibration state machine, kinematics adapter,
effort-control blender and gripper edge detector of
src/components/code/mtsIntuitiveResearchKitMTM.cpp.

The double-precision arithmetic of the source is modelled by exact rational
arithmetic: every constant of the source (cmnPI, cmnPI_180, tolerances) is
embedded as the rational it denotes, and black-box collaborators (the IK
solvers, the Reflexxes trajectory generator, the sensor readings) are
modelled as per-cycle oracle inputs, exactly as the spec scopes them.
-/

namespace MTMVerify

/-- The constant cmnPI of cisstCommon as used by the source: the IEEE-754
double nearest pi, an exact rational with denominator 2 ^ 48. -/
def cmnPI : ℚ := 884279719003555 / 281474976710656

/-- cmnPI_180, the per-degree constant of cisstCommon. -/
def cmnPI_180 : ℚ := cmnPI / 180

/-- C nearbyint under the default rounding mode (round to nearest, ties to
even), as used at lines 166 and 574 of the source. -/
def nearbyint (x : ℚ) : ℤ :=
  if x - ⌊x⌋ < 1 / 2 then ⌊x⌋
  else if 1 / 2 < x - ⌊x⌋ then ⌊x⌋ + 1
  else if ⌊x⌋ % 2 = 0 then ⌊x⌋ else ⌊x⌋ + 1

/-- Roll unwrapping shared by InverseKinematics (lines 164-167) and
ControlEffortOrientationLocked (lines 572-575): add to the raw solution the
number of full turns that brings it closest to the previous roll value. -/
def unwrapRoll (prev sol : ℚ) : ℚ :=
  sol + (nearbyint ((prev - sol) / (2 * cmnPI)) : ℚ) * (2 * cmnPI)

lemma cmnPI_pos : (0 : ℚ) < cmnPI := by norm_num [cmnPI]

lemma two_cmnPI_pos : (0 : ℚ) < 2 * cmnPI := by linarith [cmnPI_pos]

/-- nearbyint lands within a half of its argument. -/
lemma abs_sub_nearbyint_le (x : ℚ) : |x - (nearbyint x : ℚ)| ≤ 1 / 2 := by
  have h0 : (⌊x⌋ : ℚ) ≤ x := Int.floor_le x
  have h1 : x < ⌊x⌋ + 1 := Int.lt_floor_add_one x
  unfold nearbyint
  split_ifs with ha hb hc
  · rw [abs_le]; constructor <;> linarith
  · push_cast
    rw [abs_le]; constructor <;> linarith
  · rw [abs_le]; constructor <;> linarith
  · push_cast
    rw [abs_le]; constructor <;> linarith

/-- nearbyint is a closest integer: no other integer is nearer. -/
lemma abs_sub_nearbyint_min (x : ℚ) (j : ℤ) :
    |x - (nearbyint x : ℚ)| ≤ |x - (j : ℚ)| := by
  by_cases hj : j = nearbyint x
  · rw [hj]
  · have hne : nearbyint x - j ≠ 0 := sub_ne_zero.mpr fun h => hj h.symm
    have hone : (1 : ℤ) ≤ |nearbyint x - j| := Int.one_le_abs hne
    have honeQ : (1 : ℚ) ≤ |(nearbyint x : ℚ) - (j : ℚ)| := by
      exact_mod_cast hone
    have htri : |(nearbyint x : ℚ) - (j : ℚ)|
        ≤ |(nearbyint x : ℚ) - x| + |x - (j : ℚ)| := abs_sub_le _ _ _
    have hcomm : |(nearbyint x : ℚ) - x| = |x - (nearbyint x : ℚ)| := abs_sub_comm _ _
    have hhalf := abs_sub_nearbyint_le x
    linarith

/-- The unwrapped roll differs from the raw solution by an integer number of
full turns. -/
lemma unwrapRoll_mem_class (prev sol : ℚ) :
    ∃ k : ℤ, unwrapRoll prev sol = sol + (k : ℚ) * (2 * cmnPI) :=
  ⟨nearbyint ((prev - sol) / (2 * cmnPI)), rfl⟩

/-- The unwrapped roll is within half a turn of the previous value. -/
lemma unwrapRoll_dist_le (prev sol : ℚ) :
    |unwrapRoll prev sol - prev| ≤ cmnPI := by
  set t : ℚ := (prev - sol) / (2 * cmnPI) with ht
  have hp : (0 : ℚ) < 2 * cmnPI := two_cmnPI_pos
  have hsub : prev - sol = t * (2 * cmnPI) := by
    rw [ht, div_mul_cancel₀]
    exact ne_of_gt hp
  have heq : unwrapRoll prev sol - prev
      = ((nearbyint t : ℚ) - t) * (2 * cmnPI) := by
    unfold unwrapRoll
    rw [← ht]
    linear_combination -hsub
  rw [heq, abs_mul, abs_of_pos hp, abs_sub_comm]
  have hhalf := abs_sub_nearbyint_le t
  nlinarith

/-- The unwrapped roll is the representative of the residue class of the raw
solution modulo a full turn that is closest to the previous value. -/
lemma unwrapRoll_closest (prev sol : ℚ) (j : ℤ) :
    |unwrapRoll prev sol - prev| ≤ |sol + (j : ℚ) * (2 * cmnPI) - prev| := by
  set t : ℚ := (prev - sol) / (2 * cmnPI) with ht
  have hp : (0 : ℚ) < 2 * cmnPI := two_cmnPI_pos
  have hsub : prev - sol = t * (2 * cmnPI) := by
    rw [ht, div_mul_cancel₀]
    exact ne_of_gt hp
  have heq : unwrapRoll prev sol - prev
      = ((nearbyint t : ℚ) - t) * (2 * cmnPI) := by
    unfold unwrapRoll
    rw [← ht]
    linear_combination -hsub
  have heqj : sol + (j : ℚ) * (2 * cmnPI) - prev = ((j : ℚ) - t) * (2 * cmnPI) := by
    linear_combination -hsub
  rw [heq, heqj, abs_mul ((nearbyint t : ℚ) - t), abs_mul ((j : ℚ) - t),
    abs_of_pos hp]
  have hmin := abs_sub_nearbyint_min t j
  rw [abs_sub_comm t (nearbyint t : ℚ), abs_sub_comm t (j : ℚ)] at hmin
  nlinarith [abs_nonneg ((j : ℚ) - t)]

/-- Index of the wrist roll joint (JNT_WRIST_ROLL, last of the 7 joints). -/
abbrev JNT_WRIST_ROLL : Fin 7 := 6

/-- Kinematic type selected at configuration time (lines 80-84). -/
inductive KinematicType where
  | MTM_ITERATIVE
  | MTM_CLOSED
deriving DecidableEq

/-- Iterative-mode platform-joint coupling and limit clamping applied to the
IK seed (lines 146-161); c is the cosine function of the C library. -/
def ikPreAdjust (kt : KinematicType) (c : ℚ → ℚ) (q3Min q3Max : ℚ)
    (jointSet : Fin 7 → ℚ) : Fin 7 → ℚ :=
  if kt = .MTM_ITERATIVE then
    let j3 := jointSet 3 + jointSet 5 * c (jointSet 4)
    let j3c := if j3 > q3Max then q3Max else if j3 < q3Min then q3Min else j3
    Function.update jointSet 3 j3c
  else jointSet

/-- mtsIntuitiveResearchKitMTM::InverseKinematics (lines 143-171).  The
black-box solver Manipulator->InverseKinematics is an oracle returning the
solved joint vector or failure; measuredRoll is
m_measured_js_kin.Position()[JNT_WRIST_ROLL]. -/
def inverseKinematicsMTM (kt : KinematicType) (c : ℚ → ℚ) (q3Min q3Max : ℚ)
    (solver : (Fin 7 → ℚ) → Option (Fin 7 → ℚ)) (measuredRoll : ℚ)
    (jointSet : Fin 7 → ℚ) : Option (Fin 7 → ℚ) :=
  match solver (ikPreAdjust kt c q3Min q3Max jointSet) with
  | some sol =>
      some (Function.update sol JNT_WRIST_ROLL
        (unwrapRoll measuredRoll (sol JNT_WRIST_ROLL)))
  | none => none

/-- Arm state names relevant to the MTM roll calibration (registered at lines
193-197 plus READY of the base class); FALLBACK stands for the configured
fallback state mFallbackState. -/
inductive ArmStateName where
  | CALIBRATING_ROLL
  | ROLL_CALIBRATED
  | HOMING_ROLL
  | RESETTING_ROLL_ENCODER
  | ROLL_ENCODER_RESET
  | READY
  | FALLBACK
deriving DecidableEq

/-- Result of robReflexxes evaluation; ERROR_OTHER stands for every value
other than Reflexxes_WORKING and Reflexxes_FINAL_STATE_REACHED (the default
cases at lines 415-417 and 495-497). -/
inductive ReflexxesResult where
  | WORKING
  | FINAL_STATE_REACHED
  | ERROR_OTHER
deriving DecidableEq

/-- Commands and events the source sends to the PID layer, the IO layer and
the messaging interface during one cycle, in order of emission. -/
inductive Act where
  | setPositionJointLocal (js : Fin 7 → ℚ)
  | sendStatus
  | sendError
  | sendWarning
  | setTrackingErrorTolerance (tol : Fin 7 → ℚ)
  | enableTrackingError (enabled : Bool)
  | setCheckPositionLimit (enabled : Bool)
  | setControlSpaceAndMode
  | enableJoints (mask : Fin 7 → Bool)
  | resetSingleEncoder (jnt : ℕ)
deriving DecidableEq

/-- Mutable state of the MTM arm that the modelled member functions touch. -/
structure MTM where
  current : ArmStateName
  desired : ArmStateName
  fallback : ArmStateName
  simulated : Bool
  homedOnce : Bool
  allEncodersBiased : Bool
  jointSet : Fin 7 → ℚ
  jointVelocitySet : Fin 7 → ℚ
  trajGoal : Fin 7 → ℚ
  trajGoalVelocity : Fin 7 → ℚ
  trajGoalTolerance : Fin 7 → ℚ
  trajEndTime : ℚ
  homingTimer : ℚ
  homingCalibrateRollLower : ℚ
  defaultTrackingErrorTolerance : Fin 7 → ℚ
  trackingErrorEnabled : Bool
  checkPositionLimit : Bool
  homingRollEncoderReset : Bool
deriving DecidableEq

/-- Per-cycle inputs: sensor readings and the oracle output of the black-box
Reflexxes trajectory generator (Evaluate writes JointSet/JointVelocitySet in
place; those written values are reflexxesPos/reflexxesVel). -/
structure CycleInput where
  measuredPos : Fin 7 → ℚ
  setpointPos : Fin 7 → ℚ
  currentTime : ℚ
  reflexxesPos : Fin 7 → ℚ
  reflexxesVel : Fin 7 → ℚ
  reflexxesResult : ReflexxesResult
  reflexxesDuration : ℚ
deriving DecidableEq

/-- maxTrackingError of EnterCalibratingRoll/RunCalibratingRoll: half a
turn (lines 335 and 364). -/
def maxTrackingError : ℚ := 1 * cmnPI

/-- maxRollRange (line 336). -/
def maxRollRange : ℚ := 6 * cmnPI + maxTrackingError

/-- extraTime: 2 seconds of grace past the predicted end (lines 366, 456). -/
def extraTime : ℚ := 2

/-- timeToWait of RunResettingRollEncoder: 10 ms (line 519). -/
def timeToWait : ℚ := 10 * (1 / 1000)

/-- Modelled from the spec: mtsIntuitiveResearchKitArm::SetDesiredState is
not part of this file; per spec section 4.3 and 7 it redirects the arm by
recording the requested state as the desired state. -/
def setDesiredState (s : MTM) (target : ArmStateName) : MTM :=
  { s with desired := target }

/-- Prepend acts to the act list of a (state, acts) result. -/
def withActs (acts : List Act) (r : MTM × List Act) : MTM × List Act :=
  (r.1, acts ++ r.2)

/-- EnterCalibratingRoll (lines 329-355). -/
def enterCalibratingRoll (s : MTM) (inp : CycleInput) : MTM × List Act :=
  if s.simulated || s.homedOnce || s.allEncodersBiased then (s, [])
  else
    let tol := Function.update s.defaultTrackingErrorTolerance JNT_WRIST_ROLL
      (1.5 * maxRollRange)
    let goal := Function.update (fun _ => (0 : ℚ)) JNT_WRIST_ROLL
      (inp.setpointPos JNT_WRIST_ROLL - maxRollRange)
    ({ s with defaultTrackingErrorTolerance := tol,
              checkPositionLimit := false,
              trajGoal := goal,
              trajGoalVelocity := fun _ => 0,
              trajEndTime := 0,
              trackingErrorEnabled := true },
     [Act.setTrackingErrorTolerance tol, Act.setCheckPositionLimit false,
      Act.setControlSpaceAndMode, Act.enableTrackingError true,
      Act.sendStatus])

/-- EnterHomingRoll (lines 429-446). -/
def enterHomingRoll (s : MTM) (_inp : CycleInput) : MTM × List Act :=
  if s.simulated || s.homedOnce || s.allEncodersBiased then (s, [])
  else
    let goal := Function.update (fun _ => (0 : ℚ)) JNT_WRIST_ROLL
      (s.homingCalibrateRollLower + 480 * cmnPI_180)
    ({ s with trajGoal := goal,
              trajGoalVelocity := fun _ => 0,
              trajEndTime := 0,
              jointVelocitySet := fun _ => 0,
              trackingErrorEnabled := true },
     [Act.setControlSpaceAndMode, Act.enableTrackingError true,
      Act.sendStatus])

/-- EnterResettingRollEncoder (lines 501-514). -/
def enterResettingRollEncoder (s : MTM) (inp : CycleInput) : MTM × List Act :=
  ({ s with homingRollEncoderReset := false, homingTimer := inp.currentTime },
   [Act.enableJoints (Function.update (fun _ => true) (6 : Fin 7) false)])

/-- Modelled from the spec: mtsStateMachine::SetCurrentState (the driver is
not part of this file) sets the current state and invokes the enter callback
registered for it in Init (lines 193-226).  READY belongs to the base class
and is out of scope; entering it performs none of the modelled actions. -/
def setCurrentState (inp : CycleInput) (s : MTM) (target : ArmStateName) :
    MTM × List Act :=
  let s1 := { s with current := target }
  match target with
  | .CALIBRATING_ROLL => enterCalibratingRoll s1 inp
  | .HOMING_ROLL => enterHomingRoll s1 inp
  | .RESETTING_ROLL_ENCODER => enterResettingRollEncoder s1 inp
  | _ => (s1, [])

/-- RunCalibratingRoll (lines 357-420). -/
def runCalibratingRoll (s : MTM) (inp : CycleInput) : MTM × List Act :=
  if s.simulated || s.homedOnce || s.allEncodersBiased then
    setCurrentState inp s .ROLL_CALIBRATED
  else
    let s1 := { s with jointSet := inp.reflexxesPos,
                       jointVelocitySet := inp.reflexxesVel }
    withActs [Act.setPositionJointLocal s1.jointSet] <|
      match inp.reflexxesResult with
      | .WORKING =>
          let s2 := if s1.trajEndTime = 0 then
              { s1 with trajEndTime := inp.currentTime + inp.reflexxesDuration,
                        homingTimer := inp.currentTime + inp.reflexxesDuration }
            else s1
          if |inp.measuredPos JNT_WRIST_ROLL - s2.jointSet JNT_WRIST_ROLL|
              > maxTrackingError then
            let s3 := { s2 with
              homingCalibrateRollLower := inp.measuredPos JNT_WRIST_ROLL,
              jointSet := Function.update s2.jointSet JNT_WRIST_ROLL
                (inp.measuredPos JNT_WRIST_ROLL),
              defaultTrackingErrorTolerance := fun _ => 20 * cmnPI_180,
              trackingErrorEnabled := true }
            withActs [Act.setPositionJointLocal s3.jointSet,
                      Act.setTrackingErrorTolerance
                        s3.defaultTrackingErrorTolerance,
                      Act.enableTrackingError true,
                      Act.sendStatus] <|
              setCurrentState inp s3 .ROLL_CALIBRATED
          else
            if inp.currentTime > s2.homingTimer + extraTime then
              (setDesiredState s2 s2.fallback, [Act.sendError])
            else (s2, [])
      | .FINAL_STATE_REACHED =>
          (setDesiredState s1 s1.fallback, [Act.sendError])
      | .ERROR_OTHER => (s1, [Act.sendError])

/-- RunHomingRoll (lines 448-499). -/
def runHomingRoll (s : MTM) (inp : CycleInput) : MTM × List Act :=
  if s.simulated || s.homedOnce || s.allEncodersBiased then
    setCurrentState inp { s with homedOnce := true } .ROLL_ENCODER_RESET
  else
    let s1 := { s with jointSet := inp.reflexxesPos,
                       jointVelocitySet := inp.reflexxesVel }
    withActs [Act.setPositionJointLocal s1.jointSet] <|
      match inp.reflexxesResult with
      | .WORKING =>
          if s1.trajEndTime = 0 then
            ({ s1 with trajEndTime := inp.currentTime + inp.reflexxesDuration,
                       homingTimer := inp.currentTime + inp.reflexxesDuration },
             [])
          else (s1, [])
      | .FINAL_STATE_REACHED =>
          if ∀ i, |s1.trajGoal i - inp.measuredPos i| < s1.trajGoalTolerance i
          then setCurrentState inp s1 .RESETTING_ROLL_ENCODER
          else
            if inp.currentTime > s1.homingTimer + extraTime then
              (setDesiredState s1 s1.fallback, [Act.sendError])
            else (s1, [])
      | .ERROR_OTHER => (s1, [Act.sendError])

/-- RunResettingRollEncoder (lines 516-553).  The reset of
m_setpoint_js_pid to zero acts on PID-owned data that is a per-cycle input
here, so it has no modelled state field. -/
def runResettingRollEncoder (s : MTM) (inp : CycleInput) : MTM × List Act :=
  if !s.homingRollEncoderReset then
    if inp.currentTime - s.homingTimer < timeToWait then (s, [])
    else ({ s with homingRollEncoderReset := true },
          [Act.resetSingleEncoder 6])
  else
    if inp.currentTime - s.homingTimer < timeToWait then (s, [])
    else
      let s1 := { s with jointSet := fun _ => 0,
                         checkPositionLimit := true,
                         homedOnce := true }
      withActs [Act.setPositionJointLocal (fun _ => 0),
                Act.setCheckPositionLimit true,
                Act.enableJoints (fun _ => true)] <|
        setCurrentState inp s1 .ROLL_ENCODER_RESET

/-- TransitionRollCalibrated (lines 422-427) and TransitionRollEncoderReset
(lines 555-560); DesiredStateIsNotCurrent is modelled from the spec as a
pending state change, desired state differing from the current one. -/
def transitionCallback (s : MTM) (inp : CycleInput) : MTM × List Act :=
  match s.current with
  | .ROLL_CALIBRATED =>
      if s.desired ≠ s.current then setCurrentState inp s .HOMING_ROLL
      else (s, [])
  | .ROLL_ENCODER_RESET =>
      if s.desired ≠ s.current then setCurrentState inp s .READY
      else (s, [])
  | _ => (s, [])

/-- Run callback registered for the current state (lines 206-222). -/
def runCallback (s : MTM) (inp : CycleInput) : MTM × List Act :=
  match s.current with
  | .CALIBRATING_ROLL => runCalibratingRoll s inp
  | .HOMING_ROLL => runHomingRoll s inp
  | .RESETTING_ROLL_ENCODER => runResettingRollEncoder s inp
  | _ => (s, [])

/-- Modelled from the spec: the per-cycle driver loop of mtsStateMachine is
not part of this file; per spec sections 4.3 and 9 it invokes the current
run callback and then the transition callback of the (possibly updated)
current state, once per control cycle. -/
def stepCycle (s : MTM) (inp : CycleInput) : MTM × List Act :=
  let r := runCallback s inp
  let t := transitionCallback r.1 inp
  (t.1, r.2 ++ t.2)

/-- Per-cycle inputs of ControlEffortOrientationLocked: the black-box
numerical IK solve on the seed mEffortOrientationJoint against the goal pose
(measured translation, locked rotation) is the oracle ikResult, failure
being none (lines 566-571); reflexxesPos/reflexxesVel are the values the
Reflexxes evaluation writes into JointSet/JointVelocitySet (lines 578-581).
-/
structure LockCycleInput where
  ikResult : Option (Fin 7 → ℚ)
  measuredPos : Fin 7 → ℚ
  reflexxesPos : Fin 7 → ℚ
  reflexxesVel : Fin 7 → ℚ
deriving DecidableEq

/-- ControlEffortOrientationLocked (lines 562-586). -/
def controlEffortOrientationLocked (s : MTM) (inp : LockCycleInput) :
    MTM × List Act :=
  match inp.ikResult with
  | some sol =>
      let sol1 := Function.update sol JNT_WRIST_ROLL
        (unwrapRoll (inp.measuredPos JNT_WRIST_ROLL) (sol JNT_WRIST_ROLL))
      ({ s with trajGoal := sol1,
                jointSet := inp.reflexxesPos,
                jointVelocitySet := inp.reflexxesVel },
       [Act.setPositionJointLocal inp.reflexxesPos])
  | none => (s, [Act.sendWarning])

/-- SetControlEffortActiveJoints (lines 588-602): the per-joint torque-mode
mask handed to PID.EnableTorqueMode; Ref(3, 0) covers joints 0-2 and
Ref(4, 3) covers joints 3-6. -/
def setControlEffortActiveJoints (effortOrientationLocked : Bool) :
    Fin 7 → Bool :=
  if effortOrientationLocked then
    fun i => if i.val < 3 then true else false
  else fun _ => true

/-- mWrenchType values; the source only distinguishes WRENCH_SPATIAL from
the rest (line 607). -/
inductive WrenchType where
  | WRENCH_UNDEFINED
  | WRENCH_SPATIAL
  | WRENCH_BODY
deriving DecidableEq

/-- ControlEffortCartesianPreload (lines 604-656): returns the effort
preload (7 joints) and the wrench preload (6 axes) the source writes into
its output parameters; c is the cosine function of the C library, q and qd
are m_measured_js_kin position and velocity. -/
def controlEffortCartesianPreload (wrenchType : WrenchType) (c : ℚ → ℚ)
    (q3Min q3Max : ℚ) (q qd : Fin 7 → ℚ) : (Fin 7 → ℚ) × (Fin 6 → ℚ) :=
  if wrenchType = .WRENCH_SPATIAL then (fun _ => 0, fun _ => 0)
  else
    let q3Increment := q 5 * c (q 4)
    let q3MaxIncrement := cmnPI * 0.05
    let q3IncrementC :=
      if q3Increment > q3MaxIncrement then q3MaxIncrement
      else if q3Increment < -q3MaxIncrement then -q3MaxIncrement
      else q3Increment
    let q3Goal := q 3 + q3IncrementC
    let q3GoalC :=
      if q3Goal > q3Max then q3Max
      else if q3Goal < q3Min then q3Min
      else q3Goal
    let e3 := -0.4 * (q 3 - q3GoalC) - 0.05 * qd 3
    let e3capped := min (max e3 (-0.1)) 0.1
    (Function.update (fun _ => 0) (3 : Fin 7) e3capped, fun _ => 0)

/-- Events the gripper code of GetRobotData can fire in one cycle:
closedEvent is the payload of GripperClosedEvent when it fires, pinch tells
whether GripperPinchEvent fires (lines 297-309). -/
structure GripperEvents where
  closedEvent : Option Bool
  pinch : Bool
deriving DecidableEq

/-- Gripper edge detector of GetRobotData (lines 297-309): from the stored
GripperClosed flag and the analog gripper position, the new flag and the
events of this cycle. -/
def gripperUpdate (gripperClosed : Bool) (position : ℚ) :
    Bool × GripperEvents :=
  if gripperClosed then
    if position > 0 then (false, ⟨some false, false⟩)
    else (gripperClosed, ⟨none, false⟩)
  else
    if position < 0 then (true, ⟨some true, true⟩)
    else (gripperClosed, ⟨none, false⟩)

/-- Fold of the gripper edge detector over a sequence of per-cycle
positions, collecting the events of each cycle. -/
def gripperRun (gripperClosed : Bool) : List ℚ → Bool × List GripperEvents
  | [] => (gripperClosed, [])
  | p :: ps =>
      let r := gripperUpdate gripperClosed p
      let rest := gripperRun r.1 ps
      (rest.1, r.2 :: rest.2)

/-- A concrete arm state used to evaluate the theorems on explicit inputs. -/
def mtmW : MTM :=
  { current := .CALIBRATING_ROLL, desired := .READY, fallback := .FALLBACK,
    simulated := false, homedOnce := false, allEncodersBiased := false,
    jointSet := fun _ => 0, jointVelocitySet := fun _ => 0,
    trajGoal := fun _ => 0, trajGoalVelocity := fun _ => 0,
    trajGoalTolerance := fun _ => 0, trajEndTime := 0, homingTimer := 0,
    homingCalibrateRollLower := 0,
    defaultTrackingErrorTolerance := fun _ => 0,
    trackingErrorEnabled := false, checkPositionLimit := true,
    homingRollEncoderReset := false }

/-- The concrete state mtmW with the homed-once flag set. -/
def mtmSkipW : MTM := { mtmW with homedOnce := true }

/-- A concrete cycle input: measured roll 0.52 while the commanded roll from
the trajectory is 4 lower, trajectory WORKING. -/
def cycW : CycleInput :=
  { measuredPos := fun _ => 0.52, setpointPos := fun _ => 0,
    currentTime := 0, reflexxesPos := fun _ => 0.52 - 4,
    reflexxesVel := fun _ => 0, reflexxesResult := .WORKING,
    reflexxesDuration := 10 }

/-- A concrete cycle input whose trajectory status is neither WORKING nor
FINAL_STATE_REACHED. -/
def cycErrW : CycleInput :=
  { measuredPos := fun _ => 0, setpointPos := fun _ => 0, currentTime := 0,
    reflexxesPos := fun _ => 0, reflexxesVel := fun _ => 0,
    reflexxesResult := .ERROR_OTHER, reflexxesDuration := 10 }

/-- A concrete orientation-lock cycle input on which the IK solve fails. -/
def lockInFail : LockCycleInput :=
  ⟨none, fun _ => 0, fun _ => 0, fun _ => 0⟩

/-- A concrete orientation-lock cycle input on which the IK solve succeeds
with the all-ones solution. -/
def lockInOk : LockCycleInput :=
  ⟨some (fun _ => 1), fun _ => 0, fun _ => 2, fun _ => 0⟩

/-- C1: after a successful IK solve, both InverseKinematics and
ControlEffortOrientationLocked replace the roll entry of the raw solution by
its unwrapping toward the previous roll value, and the unwrapped value is
the representative of the residue class of the raw solution modulo one full
turn that is closest to the previous value, hence within half a turn of
it. -/
theorem C1_roll_turn_continuity
    (kt : KinematicType) (c : ℚ → ℚ) (q3Min q3Max measuredRoll : ℚ)
    (solver : (Fin 7 → ℚ) → Option (Fin 7 → ℚ)) (jointSet sol : Fin 7 → ℚ)
    (hsol : solver (ikPreAdjust kt c q3Min q3Max jointSet) = some sol)
    (s : MTM) (inp : LockCycleInput) (sol2 : Fin 7 → ℚ)
    (hsol2 : inp.ikResult = some sol2) :
    inverseKinematicsMTM kt c q3Min q3Max solver measuredRoll jointSet
      = some (Function.update sol JNT_WRIST_ROLL
          (unwrapRoll measuredRoll (sol JNT_WRIST_ROLL)))
    ∧ (controlEffortOrientationLocked s inp).1.trajGoal
      = Function.update sol2 JNT_WRIST_ROLL
          (unwrapRoll (inp.measuredPos JNT_WRIST_ROLL) (sol2 JNT_WRIST_ROLL))
    ∧ ∀ prev x : ℚ,
        (∃ k : ℤ, unwrapRoll prev x = x + (k : ℚ) * (2 * cmnPI))
        ∧ |unwrapRoll prev x - prev| ≤ cmnPI
        ∧ ∀ j : ℤ, |unwrapRoll prev x - prev|
            ≤ |x + (j : ℚ) * (2 * cmnPI) - prev| := by
  refine ⟨?_, ?_, fun prev x => ⟨unwrapRoll_mem_class prev x,
    unwrapRoll_dist_le prev x, fun j => unwrapRoll_closest prev x j⟩⟩
  · unfold inverseKinematicsMTM
    rw [hsol]
  · simp [controlEffortOrientationLocked, hsol2]

/-- C1 witness: the theorem evaluated on a constant solver succeeding with
the zero solution, previous roll 4, and the concrete lock input lockInOk. -/
theorem C1_roll_turn_continuity_witness :
    ((fun _ : Fin 7 → ℚ => some (fun _ : Fin 7 => (0 : ℚ)))
        (ikPreAdjust .MTM_CLOSED (fun x => x) 0 0 (fun _ => 0))
      = some (fun _ : Fin 7 => (0 : ℚ)))
    ∧ lockInOk.ikResult = some (fun _ => (1 : ℚ))
    ∧ |unwrapRoll 4 0 - 4| ≤ cmnPI :=
  ⟨rfl, rfl,
    ((C1_roll_turn_continuity .MTM_CLOSED (fun x => x) 0 0 4
      (fun _ => some (fun _ => (0 : ℚ))) (fun _ => 0) (fun _ => 0) rfl
      mtmW lockInOk (fun _ => 1) rfl).2.2 4 0).2.1⟩

/-- C2: in CALIBRATING_ROLL (no skip flag set), on a WORKING cycle whose
roll tracking error exceeds half a turn, the run callback records the
measured roll as the lower limit, re-commands the roll setpoint to the
measured position, restores the 20 degree tracking tolerance with
supervision re-enabled, and moves to ROLL_CALIBRATED in that same cycle. -/
theorem C2_hardstop_detection (s : MTM) (inp : CycleInput)
    (hsim : s.simulated = false) (hhomed : s.homedOnce = false)
    (hbias : s.allEncodersBiased = false)
    (hres : inp.reflexxesResult = .WORKING)
    (herr : |inp.measuredPos JNT_WRIST_ROLL - inp.reflexxesPos JNT_WRIST_ROLL|
      > maxTrackingError) :
    ((runCalibratingRoll s inp).1.current = .ROLL_CALIBRATED)
    ∧ (runCalibratingRoll s inp).1.homingCalibrateRollLower
        = inp.measuredPos JNT_WRIST_ROLL
    ∧ (runCalibratingRoll s inp).1.jointSet
        = Function.update inp.reflexxesPos JNT_WRIST_ROLL
            (inp.measuredPos JNT_WRIST_ROLL)
    ∧ (runCalibratingRoll s inp).1.defaultTrackingErrorTolerance
        = (fun _ => 20 * cmnPI_180)
    ∧ (runCalibratingRoll s inp).1.trackingErrorEnabled = true
    ∧ (runCalibratingRoll s inp).2
        = [Act.setPositionJointLocal inp.reflexxesPos,
           Act.setPositionJointLocal
             (Function.update inp.reflexxesPos JNT_WRIST_ROLL
               (inp.measuredPos JNT_WRIST_ROLL)),
           Act.setTrackingErrorTolerance (fun _ => 20 * cmnPI_180),
           Act.enableTrackingError true,
           Act.sendStatus] := by
  have hskip : (s.simulated || s.homedOnce || s.allEncodersBiased) = false := by
    rw [hsim, hhomed, hbias]; rfl
  by_cases hE : s.trajEndTime = 0 <;>
    simp [runCalibratingRoll, hskip, hres, hE, withActs, setCurrentState,
      herr]

/-- C2 witness: the theorem evaluated on the concrete state mtmW and the
concrete cycle cycW, whose roll tracking error is 4 > maxTrackingError. -/
theorem C2_hardstop_detection_witness :
    mtmW.simulated = false ∧ cycW.reflexxesResult = .WORKING
    ∧ |cycW.measuredPos JNT_WRIST_ROLL - cycW.reflexxesPos JNT_WRIST_ROLL|
        > maxTrackingError
    ∧ (runCalibratingRoll mtmW cycW).1.current = .ROLL_CALIBRATED :=
  ⟨rfl, rfl, by
    have h4 : cycW.measuredPos JNT_WRIST_ROLL
        - cycW.reflexxesPos JNT_WRIST_ROLL = 4 := by norm_num [cycW]
    rw [gt_iff_lt, h4, abs_of_pos (by norm_num)]
    norm_num [maxTrackingError, cmnPI],
   (C2_hardstop_detection mtmW cycW rfl rfl rfl rfl (by
    have h4 : cycW.measuredPos JNT_WRIST_ROLL
        - cycW.reflexxesPos JNT_WRIST_ROLL = 4 := by norm_num [cycW]
    rw [gt_iff_lt, h4, abs_of_pos (by norm_num)]
    norm_num [maxTrackingError, cmnPI])).1⟩

/-- C3 counterexample: on a trajectory status that is neither WORKING nor
FINAL_STATE_REACHED in CALIBRATING_ROLL, the code sends an error but leaves
the desired state at READY instead of redirecting it to the configured
fallback state, refuting the claimed fallback redirection. -/
theorem C3_fallback_counterexample :
    Act.sendError ∈ (runCalibratingRoll mtmW cycErrW).2
    ∧ (runCalibratingRoll mtmW cycErrW).1.desired = .READY
    ∧ mtmW.fallback = .FALLBACK
    ∧ ¬ (runCalibratingRoll mtmW cycErrW).1.desired = mtmW.fallback := by
  decide

/-- C3 (amended): in CALIBRATING_ROLL and HOMING_ROLL, whenever the
trajectory generator returns a status other than WORKING or
FINAL_STATE_REACHED, an error event is reported upward, but the arm is not
redirected: the current and desired states are left unchanged, so the
calibration state remains active. -/
theorem C3_unexpected_status_error (s : MTM) (inp : CycleInput)
    (hsim : s.simulated = false) (hhomed : s.homedOnce = false)
    (hbias : s.allEncodersBiased = false)
    (hres : inp.reflexxesResult = .ERROR_OTHER) :
    (Act.sendError ∈ (runCalibratingRoll s inp).2
      ∧ (runCalibratingRoll s inp).1.current = s.current
      ∧ (runCalibratingRoll s inp).1.desired = s.desired)
    ∧ (Act.sendError ∈ (runHomingRoll s inp).2
      ∧ (runHomingRoll s inp).1.current = s.current
      ∧ (runHomingRoll s inp).1.desired = s.desired) := by
  have hskip : (s.simulated || s.homedOnce || s.allEncodersBiased) = false := by
    rw [hsim, hhomed, hbias]; rfl
  simp [runCalibratingRoll, runHomingRoll, hskip, hres, withActs]

/-- C3 witness: the amended theorem evaluated on the concrete state mtmW
and the concrete error-status cycle cycErrW. -/
theorem C3_unexpected_status_error_witness :
    cycErrW.reflexxesResult = .ERROR_OTHER
    ∧ (runCalibratingRoll mtmW cycErrW).1.desired = mtmW.desired :=
  ⟨rfl, (C3_unexpected_status_error mtmW cycErrW rfl rfl rfl rfl).1.2.2⟩

/-- C4: entering CALIBRATING_ROLL with homedOnce or allEncodersBiased set
and READY desired, the machine reaches READY within two cycles and no
command at all is issued on the way: in particular no trajectory position is
commanded and no encoder reset is issued. -/
theorem C4_calibration_skip (s : MTM) (inp1 inp2 : CycleInput)
    (hcur : s.current = .CALIBRATING_ROLL)
    (hskip : s.homedOnce = true ∨ s.allEncodersBiased = true)
    (hdes : s.desired = .READY) :
    (stepCycle (stepCycle s inp1).1 inp2).1.current = .READY
    ∧ (stepCycle s inp1).2 = []
    ∧ (stepCycle (stepCycle s inp1).1 inp2).2 = [] := by
  rcases hskip with h | h <;>
    simp [stepCycle, runCallback, transitionCallback, runCalibratingRoll,
      runHomingRoll, setCurrentState, enterHomingRoll, hcur, hdes, h]

/-- C4 witness: the theorem evaluated on the concrete homed-once state
mtmSkipW and two arbitrary concrete cycles. -/
theorem C4_calibration_skip_witness :
    mtmSkipW.current = .CALIBRATING_ROLL ∧ mtmSkipW.homedOnce = true
    ∧ mtmSkipW.desired = .READY
    ∧ (stepCycle (stepCycle mtmSkipW cycErrW).1 cycErrW).1.current = .READY :=
  ⟨rfl, rfl, rfl,
   (C4_calibration_skip mtmSkipW cycErrW cycErrW rfl (Or.inl rfl) rfl).1⟩

/-- C5: while orientation is locked, a cycle whose IK solve fails emits only
a warning and leaves the whole arm state, in particular the commanded joint
position, unchanged; a following successful cycle commands the joint
position again. -/
theorem C5_nonfatal_ik_failure (s : MTM) (inp1 inp2 : LockCycleInput)
    (sol2 : Fin 7 → ℚ)
    (hfail : inp1.ikResult = none) (hsucc : inp2.ikResult = some sol2) :
    (controlEffortOrientationLocked s inp1).1 = s
    ∧ (controlEffortOrientationLocked s inp1).2 = [Act.sendWarning]
    ∧ (controlEffortOrientationLocked
        (controlEffortOrientationLocked s inp1).1 inp2).1.jointSet
      = inp2.reflexxesPos
    ∧ (controlEffortOrientationLocked
        (controlEffortOrientationLocked s inp1).1 inp2).2
      = [Act.setPositionJointLocal inp2.reflexxesPos] := by
  simp [controlEffortOrientationLocked, hfail, hsucc]

/-- C5 witness: the theorem evaluated on the concrete state mtmW, a failing
lock cycle and then a succeeding one. -/
theorem C5_nonfatal_ik_failure_witness :
    lockInFail.ikResult = none
    ∧ lockInOk.ikResult = some (fun _ => (1 : ℚ))
    ∧ (controlEffortOrientationLocked mtmW lockInFail).1 = mtmW
    ∧ (controlEffortOrientationLocked
        (controlEffortOrientationLocked mtmW lockInFail).1 lockInOk).1.jointSet
      = lockInOk.reflexxesPos :=
  ⟨rfl, rfl,
   (C5_nonfatal_ik_failure mtmW lockInFail lockInOk (fun _ => 1) rfl rfl).1,
   (C5_nonfatal_ik_failure mtmW lockInFail lockInOk
     (fun _ => 1) rfl rfl).2.2.1⟩

/-- C6: for every wrench type, cosine value, joint limit pair and measured
position and velocity, the platform preload effort computed at joint 3 lies
within the symmetric bound from minus 0.1 to 0.1. -/
theorem C6_preload_effort_bound (wrenchType : WrenchType) (c : ℚ → ℚ)
    (q3Min q3Max : ℚ) (q qd : Fin 7 → ℚ) :
    -0.1 ≤ (controlEffortCartesianPreload wrenchType c q3Min q3Max q qd).1 3
    ∧ (controlEffortCartesianPreload wrenchType c q3Min q3Max q qd).1 3
      ≤ 0.1 := by
  unfold controlEffortCartesianPreload
  split_ifs with h
  · constructor <;> norm_num
  · simp only [Function.update_same]
    exact ⟨le_min (le_max_right _ _) (by norm_num), min_le_right _ _⟩

/-- C7: the torque-mode mask puts exactly the first three joints in torque
mode when orientation is locked, and all seven joints when unlocked. -/
theorem C7_torque_mode_selection :
    ∀ i : Fin 7,
      (setControlEffortActiveJoints true i = true ↔ i.val < 3)
      ∧ setControlEffortActiveJoints false i = true := by decide

/-- C8: starting open, the gripper sequence 0.5, 0.5, -0.1, -0.1, 0.6 fires
exactly one pinch event, at the third sample, and exactly one closed event
with payload false (the closed-to-open transition), at the fifth sample; a
closed event with payload true fires only at the third sample. -/
theorem C8_gripper_edge_sequence :
    gripperRun false [0.5, 0.5, -0.1, -0.1, 0.6]
      = (false,
         [⟨none, false⟩, ⟨none, false⟩, ⟨some true, true⟩,
          ⟨none, false⟩, ⟨some false, false⟩]) := by
  norm_num [gripperRun, gripperUpdate]

/-- C9: in every wrench mode and for every input, the preload effort is zero
at every joint other than joint 3, and the wrench preload is all zeros. -/
theorem C9_preload_frame_effect (wrenchType : WrenchType) (c : ℚ → ℚ)
    (q3Min q3Max : ℚ) (q qd : Fin 7 → ℚ) :
    (∀ i : Fin 7, i ≠ 3 →
      (controlEffortCartesianPreload wrenchType c q3Min q3Max q qd).1 i = 0)
    ∧ ∀ i : Fin 6,
      (controlEffortCartesianPreload wrenchType c q3Min q3Max q qd).2 i = 0 := by
  unfold controlEffortCartesianPreload
  split_ifs with h
  · exact ⟨fun i _ => rfl, fun i => rfl⟩
  · exact ⟨fun i hi => by simp [Function.update_noteq hi], fun i => rfl⟩

/-- C9 witness: the theorem evaluated in body-wrench mode on all-ones
measured position and velocity, at joint 0 and wrench axis 0. -/
theorem C9_preload_frame_effect_witness :
    (controlEffortCartesianPreload .WRENCH_BODY (fun x => x) 0 0
      (fun _ => 1) (fun _ => 1)).1 0 = 0
    ∧ (controlEffortCartesianPreload .WRENCH_BODY (fun x => x) 0 0
      (fun _ => 1) (fun _ => 1)).2 0 = 0 :=
  ⟨(C9_preload_frame_effect .WRENCH_BODY (fun x => x) 0 0 (fun _ => 1)
      (fun _ => 1)).1 0 (by decide),
   (C9_preload_frame_effect .WRENCH_BODY (fun x => x) 0 0 (fun _ => 1)
      (fun _ => 1)).2 0⟩

/-- C10: a measured gripper position of exactly zero leaves the gripper
state unchanged and fires no event, whatever the current state, because both
comparisons of the source are strict. -/
theorem C10_gripper_zero_position :
    ∀ gripperClosed : Bool,
      gripperUpdate gripperClosed 0 = (gripperClosed, ⟨none, false⟩) := by
  decide

end MTMVerify
